import Mathlib

/-!
Verification of the Bayesian neural-network core in `src/models/BnnModel.py`.

The development has two models of the code:

* a value-level model over `ℝ`: tensors are `Fin`-indexed functions, and the
  process-wide random source is made explicit as a stream `g : ℕ → ℝ` of
  standard-normal draws together with a position `k : ℕ` (the RNG state);
  every sampling operation reads fresh entries of the stream and returns the
  advanced position;
* a shape-level model over `List ℕ` with an explicit Python-style error type,
  used for the claims about dimension validation, shape mismatches and
  output shapes, where the relevant behaviour of the code is which library
  error (if any) a call raises and which shape it returns.
-/

namespace BnnModel

open Real Finset

/-- Errors a call into this code can surface.  The code itself defines no
error classes; `runtimeError` stands for torch's `RuntimeError` (negative
tensor sizes, incompatible matmul or broadcast shapes, empty `stack`).
`invalidDimension` and `shapeMismatch` are the error kinds named by the
specification; they appear here so that theorems can state whether the code
ever raises them. -/
inductive PyError where
  | runtimeError
  | invalidDimension
  | shapeMismatch
  deriving DecidableEq, Repr

/-- Embedding of `torch.distributions.Normal.log_prob`: for a Gaussian with mean `loc` and
standard deviation `scale`, the log-density at `value` is
`-((value - loc)^2) / (2 * scale^2) - log scale - log (sqrt (2 * π))`. -/
noncomputable def normalLogProb (loc scale value : ℝ) : ℝ :=
  -((value - loc) ^ 2) / (2 * scale ^ 2) - Real.log scale -
    Real.log (Real.sqrt (2 * Real.pi))

/-- Embedding of `torch.distributions.kl._kl_normal_normal p q`:
`var_ratio = (p.scale / q.scale)^2`, `t1 = ((p.loc - q.loc) / q.scale)^2`,
result `0.5 * (var_ratio + t1 - 1 - log var_ratio)`. -/
noncomputable def klNormalNormal (pLoc pScale qLoc qScale : ℝ) : ℝ :=
  let varRatio := (pScale / qScale) ^ 2
  let t1 := ((pLoc - qLoc) / qScale) ^ 2
  0.5 * (varRatio + t1 - 1 - Real.log varRatio)

/-- Layer state of `BnnLayer` (the `VariationalLinearLayer` of the spec): two Gaussian
parameter pairs.  As in the source, `weight_std` and `bias_std` hold the
*log* of the standard deviation (`torch.exp` is applied to them wherever they
are used).  Shapes: weights are `out_features × in_features`, biases are
`out_features`. -/
structure BnnLayer (inF outF : ℕ) where
  weight_mu : Fin outF → Fin inF → ℝ
  weight_std : Fin outF → Fin inF → ℝ
  bias_mu : Fin outF → ℝ
  bias_std : Fin outF → ℝ

/-- Gain `sqrt 2 / sqrt fan` used by `nn.init.kaiming_normal_` with
`mode="fan_in", nonlinearity="relu"`: the standard deviation of the drawn
weight means. -/
noncomputable def kaimingStd (fanIn : ℕ) : ℝ :=
  Real.sqrt 2 / Real.sqrt (fanIn : ℝ)

/-- Embedding of `BnnLayer.__init__` plus `reset_parameters` in the explicit-RNG model:
`weight_mu` is drawn elementwise as `kaimingStd inF * ε` with `ε` a fresh
standard-normal draw (row-major order), `weight_std` and `bias_std` are
filled with the constant `-5.0`, `bias_mu` with zeros.  Returns the layer and
the advanced RNG position. -/
noncomputable def BnnLayer.construct (inF outF : ℕ) (g : ℕ → ℝ) (k : ℕ) :
    BnnLayer inF outF × ℕ :=
  (⟨fun r c => kaimingStd inF * g (k + r.val * inF + c.val),
    fun _ _ => -5,
    fun _ => 0,
    fun _ => -5⟩, k + outF * inF)

/-- Embedding of `Normal(weight_mu, exp(weight_std)).rsample()` in the explicit-RNG model:
elementwise `mu + exp(log_sigma) * ε`, the `ε` read row-major from the stream
starting at position `k`. -/
noncomputable def BnnLayer.sampleWeight {inF outF : ℕ} (L : BnnLayer inF outF)
    (g : ℕ → ℝ) (k : ℕ) : Fin outF → Fin inF → ℝ :=
  fun r c => L.weight_mu r c + Real.exp (L.weight_std r c) * g (k + r.val * inF + c.val)

/-- Embedding of `Normal(bias_mu, exp(bias_std)).rsample()` in the explicit-RNG model. -/
noncomputable def BnnLayer.sampleBias {inF outF : ℕ} (L : BnnLayer inF outF)
    (g : ℕ → ℝ) (k : ℕ) : Fin outF → ℝ :=
  fun j => L.bias_mu j + Real.exp (L.bias_std j) * g (k + j.val)

/-- Embedding of `BnnLayer.forward`: sample a weight and a bias (consuming
`outF * inF + outF` fresh draws), then `F.linear x weight bias`, i.e.
`x @ weight^T + bias`.  Returns the output tensor and the advanced RNG
position. -/
noncomputable def BnnLayer.forward {inF outF : ℕ} (L : BnnLayer inF outF)
    {N : ℕ} (x : Fin N → Fin inF → ℝ) (g : ℕ → ℝ) (k : ℕ) :
    (Fin N → Fin outF → ℝ) × ℕ :=
  let w := L.sampleWeight g k
  let b := L.sampleBias g (k + outF * inF)
  (fun n j => (∑ c, x n c * w j c) + b j, k + outF * inF + outF)

/-- Embedding of `BnnLayer.kl_divergence`: `kl_divergence(posterior, prior).sum()` for the
weights plus the same for the biases, with posterior `Normal(mu, exp(std))`
and prior `Normal(0, exp(std))`, via torch's closed-form Gaussian KL. -/
noncomputable def BnnLayer.kl_divergence {inF outF : ℕ} (L : BnnLayer inF outF) : ℝ :=
  (∑ r, ∑ c, klNormalNormal (L.weight_mu r c) (Real.exp (L.weight_std r c))
      0 (Real.exp (L.weight_std r c))) +
  ∑ j, klNormalNormal (L.bias_mu j) (Real.exp (L.bias_std j))
      0 (Real.exp (L.bias_std j))

/-- Embedding of `F.relu` applied to a 2-D tensor: elementwise `max 0`. -/
def relu2 {N H : ℕ} (t : Fin N → Fin H → ℝ) : Fin N → Fin H → ℝ :=
  fun n j => max 0 (t n j)

/-- Network state of `BayesianModel`: `num_layers` hidden layers (the first maps
`input_size → hidden_size`, the rest `hidden_size → hidden_size`) plus an
output layer `hidden_size → output_size`.  The source's `ModuleList` is
`layer0 :: layersRest`, so `num_layers = 1 + layersRest.length`. -/
structure BayesianModel (I H O : ℕ) where
  layer0 : BnnLayer I H
  layersRest : List (BnnLayer H H)
  output_layer : BnnLayer H O

/-- Embedding of `BayesianModel.forward`: `for layer in self.layers: x = F.relu(layer(x))`
then `x = self.output_layer(x)`, threading the RNG state through every
layer's sampling. -/
noncomputable def BayesianModel.forward {I H O : ℕ} (m : BayesianModel I H O)
    {N : ℕ} (x : Fin N → Fin I → ℝ) (g : ℕ → ℝ) (k : ℕ) :
    (Fin N → Fin O → ℝ) × ℕ :=
  let s0 := m.layer0.forward x g k
  let sH := m.layersRest.foldl
    (fun st L =>
      let r := L.forward st.1 g st.2
      (relu2 r.1, r.2))
    (relu2 s0.1, s0.2)
  m.output_layer.forward sH.1 g sH.2

/-- Embedding of `BayesianModel.kl_divergence`: `kl = 0; for layer in self.layers:
kl += layer.kl_divergence(); kl += self.output_layer.kl_divergence()`. -/
noncomputable def BayesianModel.kl_divergence {I H O : ℕ}
    (m : BayesianModel I H O) : ℝ :=
  (m.layersRest.foldl (fun a L => a + L.kl_divergence)
    (0 + m.layer0.kl_divergence)) + m.output_layer.kl_divergence

/-- The `outputs` list of `elbo_loss`: `num_samples` successive stochastic
forward passes on the same `x`, each consuming fresh randomness where the
previous pass stopped. -/
noncomputable def sampleOutputs {I H O : ℕ} (m : BayesianModel I H O) {N : ℕ}
    (x : Fin N → Fin I → ℝ) (ns : ℕ) (g : ℕ → ℝ) (k : ℕ) :
    List (Fin N → Fin O → ℝ) × ℕ :=
  match ns with
  | 0 => ([], k)
  | n + 1 =>
    let r := m.forward x g k
    let rest := sampleOutputs m x n g r.2
    (r.1 :: rest.1, rest.2)

/-- Embedding of `BayesianModel.elbo_loss`: compute `kl` once, run `num_samples` forward
passes, average them (`outputs.mean(0)` divides by the stack length), sum the
`Normal(mean, 1).log_prob(y)` entries, and return
`-(log_likelihood - kl / len(x))`. -/
noncomputable def BayesianModel.elbo_loss {I H O : ℕ} (m : BayesianModel I H O)
    {N : ℕ} (x : Fin N → Fin I → ℝ) (y : Fin N → Fin O → ℝ) (ns : ℕ)
    (g : ℕ → ℝ) (k : ℕ) : ℝ :=
  let kl := m.kl_divergence
  let outs := (sampleOutputs m x ns g k).1
  let ybar : Fin N → Fin O → ℝ :=
    fun n j => (outs.map (fun o => o n j)).sum / (outs.length : ℝ)
  let logLikelihood := ∑ n, ∑ j, normalLogProb (ybar n j) 1 (y n j);
  -(logLikelihood - kl / (N : ℝ))

/-- Number of standard-normal draws one full network forward pass consumes:
each layer consumes `out*in + out`. -/
def drawCount {I H O : ℕ} (m : BayesianModel I H O) : ℕ :=
  (H * I + H) + m.layersRest.length * (H * H + H) + (O * H + O)

/-! ### Shape-level model

`BnnLayer.__init__` runs, in order: `torch.Tensor(out_features, in_features)`
and `torch.Tensor(out_features)` allocations (a negative size raises torch's
`RuntimeError`), then `reset_parameters`.  The initializers are total on
every successfully allocated tensor: `kaiming_normal_` returns early as a
no-op whenever the tensor has zero elements (any 0 in its shape), so
`in_features = 0` or `out_features = 0` construct successfully.  No
dimension check of the file's own appears anywhere in it. -/

/-- Outcome of `BnnLayer(inF, outF)` as a function of the (integer)
constructor arguments. -/
def bnnLayerInit (inF outF : Int) : Except PyError Unit :=
  if inF < 0 ∨ outF < 0 then .error .runtimeError
  else .ok ()

/-- The `(in_features, out_features)` pairs of the hidden layers built by
`BayesianModel.__init__`: `[BnnLayer(input_size, hidden_size) if i == 0 else
BnnLayer(hidden_size, hidden_size) for i in range(num_layers)]`
(`range` of a non-positive count is empty). -/
def hiddenDims (inputSize hiddenSize : Int) (numLayers : Int) : List (Int × Int) :=
  (List.range numLayers.toNat).map
    (fun i => if i = 0 then (inputSize, hiddenSize) else (hiddenSize, hiddenSize))

/-- Run a sequence of layer constructions, surfacing the first error. -/
def initAll : List (Int × Int) → Except PyError Unit
  | [] => .ok ()
  | d :: rest =>
    match bnnLayerInit d.1 d.2 with
    | .error e => .error e
    | .ok _ => initAll rest

/-- Outcome of `BayesianModel(input_size, hidden_size, output_size,
num_layers)`: construct the hidden layers in order, then the output layer
`BnnLayer(hidden_size, output_size)`. -/
def bayesianModelInit (inputSize hiddenSize outputSize numLayers : Int) :
    Except PyError Unit :=
  match initAll (hiddenDims inputSize hiddenSize numLayers) with
  | .error e => .error e
  | .ok _ => bnnLayerInit hiddenSize outputSize

/-- Shape semantics of `F.linear(x, weight, bias)` for a layer with the given
`in_features`/`out_features`: torch requires the input's trailing dimension
to equal `in_features` (otherwise `RuntimeError`) and replaces it by
`out_features`, keeping every leading dimension.  A 0-dimensional input is
rejected by matmul. -/
def linearShape (inF outF : ℕ) (xshape : List ℕ) : Except PyError (List ℕ) :=
  match xshape with
  | [] => .error .runtimeError
  | _ =>
    if xshape.getLast? = some inF then .ok (xshape.dropLast ++ [outF])
    else .error .runtimeError

/-- Shape semantics of the `nRest` remaining hidden layers
(`hidden_size → hidden_size`; ReLU preserves shapes). -/
def hiddenRestShape (H : ℕ) : ℕ → List ℕ → Except PyError (List ℕ)
  | 0, s => .ok s
  | n + 1, s =>
    match linearShape H H s with
    | .error e => .error e
    | .ok s2 => hiddenRestShape H n s2

/-- Shape semantics of `BayesianModel.forward`, continued: first hidden
layer, the remaining hidden layers, then the output layer. -/
def modelForwardShape (I H O : ℕ) (nRest : ℕ) (xshape : List ℕ) :
    Except PyError (List ℕ) :=
  match linearShape I H xshape with
  | .error e => .error e
  | .ok s0 =>
    match hiddenRestShape H nRest s0 with
    | .error e => .error e
    | .ok sH => linearShape H O sH

/-- One step of broadcasting two dimension sizes (torch semantics): equal
sizes match, a size of 1 stretches to the other. -/
def broadcastDim (a b : ℕ) : Option ℕ :=
  if a = b then some a else if a = 1 then some b else if b = 1 then some a else none

/-- Broadcast two shapes given with their trailing dimension first; a missing
leading dimension is treated as present with the other shape's size. -/
def broadcastRev : List ℕ → List ℕ → Option (List ℕ)
  | [], t => some t
  | s, [] => some s
  | a :: s, b :: t => do
      let d ← broadcastDim a b
      let r ← broadcastRev s t
      pure (d :: r)

/-- Broadcast two shapes (trailing dimensions aligned, torch semantics). -/
def broadcastShapes (s t : List ℕ) : Option (List ℕ) :=
  (broadcastRev s.reverse t.reverse).map List.reverse

/-- Shape semantics of `BayesianModel.elbo_loss`: `kl` involves no data;
each of the `num_samples` forward passes sees the same `x` (the first shape
error, if any, surfaces); `torch.stack` of zero tensors raises
`RuntimeError`; `Normal(outputs.mean(0), 1).log_prob(y)` broadcasts the
prediction's shape with `y`'s (`RuntimeError` when not broadcastable); the
final `.sum()` and scalar arithmetic yield a 0-dimensional result `[]`. -/
def elboShape (I H O : ℕ) (nRest : ℕ) (xshape yshape : List ℕ) (ns : ℕ) :
    Except PyError (List ℕ) :=
  if ns = 0 then .error .runtimeError
  else
    match modelForwardShape I H O nRest xshape with
    | .error e => .error e
    | .ok so =>
      match broadcastShapes so yshape with
      | some _ => .ok []
      | none => .error .runtimeError

/-- The hidden pipeline written as plain recursion: apply a layer, then the
rectified-linear nonlinearity `max 0 ·`, and continue with the remaining
layers.  Used to state that the network's forward pass is exactly this
sequence followed by an un-activated output layer. -/
noncomputable def applyHiddenSeq {H N : ℕ} (g : ℕ → ℝ) :
    List (BnnLayer H H) → (Fin N → Fin H → ℝ) × ℕ → (Fin N → Fin H → ℝ) × ℕ
  | [], st => st
  | L :: Ls, st =>
    applyHiddenSeq g Ls (relu2 (L.forward st.1 g st.2).1, (L.forward st.1 g st.2).2)

/-- The RNG stream whose `t`-th draw is the real number `t`; used for
concrete evaluations. -/
noncomputable def gNat : ℕ → ℝ := fun t => (t : ℝ)

/-- A concrete 1 × 1 layer with zero means and zero log-sigmas
(standard deviation `exp 0 = 1`). -/
noncomputable def exLayer : BnnLayer 1 1 :=
  ⟨fun _ _ => 0, fun _ _ => 0, fun _ => 0, fun _ => 0⟩

/-- A concrete 1 × 1 layer whose weight mean is 1. -/
noncomputable def exLayerMu : BnnLayer 1 1 :=
  ⟨fun _ _ => 1, fun _ _ => 0, fun _ => 0, fun _ => 0⟩

/-- A concrete zero input of shape (1, 1). -/
def exInput : Fin 1 → Fin 1 → ℝ := fun _ _ => 0

/-- A concrete zero target of shape (1, 1). -/
def exTarget : Fin 1 → Fin 1 → ℝ := fun _ _ => 0

/-- A concrete network with one hidden layer and one output layer, all
sizes 1. -/
noncomputable def exModel : BayesianModel 1 1 1 := ⟨exLayer, [], exLayer⟩

/-- Whether a call outcome is the error `e`. -/
def raisesError {α : Type} (e : PyError) : Except PyError α → Bool
  | .error e2 => e2 == e
  | .ok _ => false

/-! ### Helper lemmas -/

theorem klNormalNormal_same_scale (mu s : ℝ) (hs : s ≠ 0) :
    klNormalNormal mu s 0 s = 0.5 * (mu / s) ^ 2 := by
  simp only [klNormalNormal, div_self hs, one_pow, Real.log_one, sub_zero]
  ring

theorem kl_closed_form {i o : ℕ} (L : BnnLayer i o) :
    L.kl_divergence =
      (∑ r, ∑ c, 0.5 * (L.weight_mu r c / Real.exp (L.weight_std r c)) ^ 2) +
      ∑ j, 0.5 * (L.bias_mu j / Real.exp (L.bias_std j)) ^ 2 := by
  unfold BnnLayer.kl_divergence
  congr 1
  · exact Finset.sum_congr rfl fun r _ => Finset.sum_congr rfl fun c _ =>
      klNormalNormal_same_scale _ _ (Real.exp_ne_zero _)
  · exact Finset.sum_congr rfl fun j _ =>
      klNormalNormal_same_scale _ _ (Real.exp_ne_zero _)

theorem foldl_add_eq {α : Type} (f : α → ℝ) :
    ∀ (l : List α) (a : ℝ), l.foldl (fun s x => s + f x) a = a + (l.map f).sum
  | [], a => by simp
  | x :: l, a => by
    rw [List.foldl_cons, foldl_add_eq f l (a + f x), List.map_cons, List.sum_cons]
    ring

/-! ### C2, C5, C6: KL-divergence claims -/

/-- Claim C2: for every layer, `kl_divergence()` equals the analytic closed form
`0.5 * (mu / exp(log_sigma))^2` summed over all elements of weight and bias —
the Gaussian KL from posterior `Normal(mu, exp(log_sigma))` to a prior
`Normal(0, exp(log_sigma))` sharing the posterior's standard deviation. -/
theorem layer_kl_is_half_squared_mean_ratio {i o : ℕ} (L : BnnLayer i o) :
    L.kl_divergence =
      (∑ r, ∑ c, 0.5 * (L.weight_mu r c / Real.exp (L.weight_std r c)) ^ 2) +
      ∑ j, 0.5 * (L.bias_mu j / Real.exp (L.bias_std j)) ^ 2 :=
  kl_closed_form L

/-- Claim C5: every layer's `kl_divergence()` is non-negative; it is exactly 0
when every element of both `mu` tensors is 0 (whatever the `log_sigma`
tensors hold), and strictly positive whenever some element of a `mu` tensor
is nonzero. -/
theorem layer_kl_nonneg_zero_iff {i o : ℕ} (L : BnnLayer i o) :
    0 ≤ L.kl_divergence ∧
    (((∀ r c, L.weight_mu r c = 0) ∧ (∀ j, L.bias_mu j = 0)) →
      L.kl_divergence = 0) ∧
    (((∃ r c, L.weight_mu r c ≠ 0) ∨ (∃ j, L.bias_mu j ≠ 0)) →
      0 < L.kl_divergence) := by
  rw [kl_closed_form]
  refine ⟨?_, ?_, ?_⟩
  · apply add_nonneg
    · exact Finset.sum_nonneg fun r _ => Finset.sum_nonneg fun c _ => by positivity
    · exact Finset.sum_nonneg fun j _ => by positivity
  · rintro ⟨hw, hb⟩
    simp [hw, hb]
  · rintro (⟨r, c, hrc⟩ | ⟨j, hj⟩)
    · apply add_pos_of_pos_of_nonneg
      · apply Finset.sum_pos' (fun r _ => Finset.sum_nonneg fun c _ => by positivity)
        refine ⟨r, Finset.mem_univ r, ?_⟩
        apply Finset.sum_pos' (fun c _ => by positivity)
        refine ⟨c, Finset.mem_univ c, ?_⟩
        have hne : L.weight_mu r c / Real.exp (L.weight_std r c) ≠ 0 :=
          div_ne_zero hrc (Real.exp_ne_zero _)
        have h2 := pow_two_pos_of_ne_zero hne
        nlinarith
      · exact Finset.sum_nonneg fun j _ => by positivity
    · apply add_pos_of_nonneg_of_pos
      · exact Finset.sum_nonneg fun r _ => Finset.sum_nonneg fun c _ => by positivity
      · apply Finset.sum_pos' (fun j _ => by positivity)
        refine ⟨j, Finset.mem_univ j, ?_⟩
        have hne : L.bias_mu j / Real.exp (L.bias_std j) ≠ 0 :=
          div_ne_zero hj (Real.exp_ne_zero _)
        have h2 := pow_two_pos_of_ne_zero hne
        nlinarith

/-- Claim C5 witness: the concrete all-zero-mean 1 × 1 layer has KL divergence
exactly 0, and the concrete layer whose weight mean is 1 has strictly
positive KL divergence — both hypotheses discharged at these layers. -/
theorem layer_kl_nonneg_zero_iff_witness :
    exLayer.kl_divergence = 0 ∧ 0 < exLayerMu.kl_divergence :=
  ⟨(layer_kl_nonneg_zero_iff exLayer).2.1 ⟨fun _ _ => rfl, fun _ => rfl⟩,
    (layer_kl_nonneg_zero_iff exLayerMu).2.2
      (Or.inl ⟨0, 0, by simp [exLayerMu]⟩)⟩

/-- Claim C6: the network's KL divergence is the sum of `kl_divergence()` over all
hidden layers plus the output layer's `kl_divergence()`. -/
theorem model_kl_is_sum_of_layer_kls {I H O : ℕ} (m : BayesianModel I H O) :
    m.kl_divergence =
      m.layer0.kl_divergence + (m.layersRest.map BnnLayer.kl_divergence).sum +
        m.output_layer.kl_divergence := by
  unfold BayesianModel.kl_divergence
  rw [foldl_add_eq BnnLayer.kl_divergence]
  ring

theorem foldl_relu_eq_applyHiddenSeq {H N : ℕ} (g : ℕ → ℝ) :
    ∀ (Ls : List (BnnLayer H H)) (st : (Fin N → Fin H → ℝ) × ℕ),
      Ls.foldl
        (fun st L =>
          let r := L.forward st.1 g st.2
          (relu2 r.1, r.2)) st = applyHiddenSeq g Ls st
  | [], st => rfl
  | L :: Ls, st => by
    rw [List.foldl_cons]
    exact foldl_relu_eq_applyHiddenSeq g Ls _

/-! ### C7, C8: forward-pass claims -/

/-- Claim C7: the network's forward pass is exactly: each hidden layer followed by
the rectified-linear nonlinearity `max 0 ·` in sequence (`applyHiddenSeq`
over the first hidden layer's activated output), then the output layer with
no nonlinearity after it. -/
theorem forward_is_hidden_relu_seq_then_output {I H O N : ℕ}
    (m : BayesianModel I H O) (x : Fin N → Fin I → ℝ) (g : ℕ → ℝ) (k : ℕ) :
    m.forward x g k =
      m.output_layer.forward
        (applyHiddenSeq g m.layersRest
          (relu2 (m.layer0.forward x g k).1, (m.layer0.forward x g k).2)).1
        g
        (applyHiddenSeq g m.layersRest
          (relu2 (m.layer0.forward x g k).1, (m.layer0.forward x g k).2)).2 := by
  unfold BayesianModel.forward
  simp only [foldl_relu_eq_applyHiddenSeq]

/-- Claim C8: with the random source explicit, a layer's forward pass is the
reparameterized affine map
`x @ (mu_w + exp(log_sigma_w) * eps_w)^T + (mu_b + exp(log_sigma_b) * eps_b)`
on fresh standard-normal draws; it consumes exactly `o*i + o` draws and
stores none; its output depends only on the stream entries it consumed, so
two calls from identical RNG states agree; and two concrete calls from
different RNG states differ. -/
theorem forward_reparameterized_rng {i o N : ℕ} (L : BnnLayer i o)
    (x : Fin N → Fin i → ℝ) (g : ℕ → ℝ) (k : ℕ) :
    ((∀ n j, (L.forward x g k).1 n j =
        (∑ c, x n c *
          (L.weight_mu j c +
            Real.exp (L.weight_std j c) * g (k + j.val * i + c.val))) +
        (L.bias_mu j + Real.exp (L.bias_std j) * g (k + o * i + j.val))) ∧
      (L.forward x g k).2 = k + o * i + o ∧
      ∀ g' : ℕ → ℝ, (∀ t, t < o * i + o → g (k + t) = g' (k + t)) →
        (L.forward x g k).1 = (L.forward x g' k).1) ∧
    (exLayer.forward exInput gNat 0).1 0 0 ≠ (exLayer.forward exInput gNat 2).1 0 0 := by
  constructor
  · refine ⟨fun n j => rfl, rfl, fun g' hg => ?_⟩
    funext n j
    show (∑ c, x n c * L.sampleWeight g k j c) + L.sampleBias g (k + o * i) j =
      (∑ c, x n c * L.sampleWeight g' k j c) + L.sampleBias g' (k + o * i) j
    have hw : ∀ (j : Fin o) (c : Fin i),
        L.sampleWeight g k j c = L.sampleWeight g' k j c := by
      intro j c
      unfold BnnLayer.sampleWeight
      rw [Nat.add_assoc k (j.val * i) c.val,
        hg (j.val * i + c.val) (by
          calc j.val * i + c.val < j.val * i + i := by
                exact Nat.add_lt_add_left c.isLt _
            _ = (j.val + 1) * i := by ring
            _ ≤ o * i := Nat.mul_le_mul_right i j.isLt
            _ ≤ o * i + o := Nat.le_add_right _ _)]
    have hb : ∀ j : Fin o, L.sampleBias g (k + o * i) j = L.sampleBias g' (k + o * i) j := by
      intro j
      unfold BnnLayer.sampleBias
      rw [Nat.add_assoc k (o * i) j.val,
        hg (o * i + j.val) (Nat.add_lt_add_left j.isLt _)]
    rw [hb j]
    exact congrArg (· + L.sampleBias g' (k + o * i) j)
      (Finset.sum_congr rfl fun c _ => by rw [hw j c])
  · have h1 : (exLayer.forward exInput gNat 0).1 0 0 = 1 := by
      simp [BnnLayer.forward, BnnLayer.sampleWeight, BnnLayer.sampleBias,
        exLayer, exInput, gNat]
    have h3 : (exLayer.forward exInput gNat 2).1 0 0 = 3 := by
      simp [BnnLayer.forward, BnnLayer.sampleWeight, BnnLayer.sampleBias,
        exLayer, exInput, gNat]
    rw [h1, h3]
    norm_num

/-- Claim C8 witness: at the concrete layer, input and RNG stream, starting at
position 5, the forward pass agrees with itself under an identical stream
(the locality hypothesis discharged pointwise) and advances the RNG position
by `1*1 + 1` draws. -/
theorem forward_reparameterized_rng_witness :
    (exLayer.forward exInput gNat 5).1 = (exLayer.forward exInput gNat 5).1 ∧
    (exLayer.forward exInput gNat 5).2 = 5 + 1 * 1 + 1 :=
  ⟨(forward_reparameterized_rng exLayer exInput gNat 5).1.2.2 gNat
      (fun _ _ => rfl),
    (forward_reparameterized_rng exLayer exInput gNat 5).1.2.1⟩

/-! ### C9: initialization -/

/-- Claim C9: immediately after construction every element of both `log_sigma`
tensors equals `-5.0`, so every downstream standard deviation is
`exp (-5.0)`; the weight means are drawn as `kaimingStd in_features` times a
fresh standard-normal draw, and that scale's square — the variance of the
initialization — equals `2 / in_features`. -/
theorem construct_init_values (i o : ℕ) (g : ℕ → ℝ) (k : ℕ) :
    (∀ r c, ((BnnLayer.construct i o g k).1).weight_std r c = -5) ∧
    (∀ j, ((BnnLayer.construct i o g k).1).bias_std j = -5) ∧
    (∀ r c, Real.exp (((BnnLayer.construct i o g k).1).weight_std r c) =
      Real.exp (-5)) ∧
    (∀ j, Real.exp (((BnnLayer.construct i o g k).1).bias_std j) =
      Real.exp (-5)) ∧
    (∀ j, ((BnnLayer.construct i o g k).1).bias_mu j = 0) ∧
    (∀ r c, ((BnnLayer.construct i o g k).1).weight_mu r c =
      kaimingStd i * g (k + r.val * i + c.val)) ∧
    (0 < i → kaimingStd i ^ 2 = 2 / (i : ℝ)) := by
  refine ⟨fun r c => rfl, fun j => rfl, fun r c => rfl, fun j => rfl,
    fun j => rfl, fun r c => rfl, fun hi => ?_⟩
  unfold kaimingStd
  rw [div_pow, Real.sq_sqrt (by norm_num : (0:ℝ) ≤ 2),
    Real.sq_sqrt (by positivity : (0:ℝ) ≤ (i : ℝ))]

/-- Claim C9 witness: a concrete 1 × 1 construction has `log_sigma = -5`
everywhere and initialization variance `2 / 1`. -/
theorem construct_init_values_witness :
    ((BnnLayer.construct 1 1 gNat 0).1).weight_std 0 0 = -5 ∧
    ((BnnLayer.construct 1 1 gNat 0).1).bias_std 0 = -5 ∧
    kaimingStd 1 ^ 2 = 2 / ((1 : ℕ) : ℝ) :=
  ⟨(construct_init_values 1 1 gNat 0).1 0 0,
    (construct_init_values 1 1 gNat 0).2.1 0,
    (construct_init_values 1 1 gNat 0).2.2.2.2.2.2 one_pos⟩

theorem foldl_layers_snd {H N : ℕ} (g : ℕ → ℝ) :
    ∀ (Ls : List (BnnLayer H H)) (st : (Fin N → Fin H → ℝ) × ℕ),
      (Ls.foldl (fun st L =>
        let r := L.forward st.1 g st.2
        (relu2 r.1, r.2)) st).2 = st.2 + Ls.length * (H * H + H)
  | [], st => by simp
  | L :: Ls, st => by
    rw [List.foldl_cons, foldl_layers_snd g Ls _]
    show (st.2 + H * H + H) + Ls.length * (H * H + H) =
      st.2 + (Ls.length + 1) * (H * H + H)
    ring

theorem model_forward_snd {I H O N : ℕ} (m : BayesianModel I H O)
    (x : Fin N → Fin I → ℝ) (g : ℕ → ℝ) (k : ℕ) :
    (m.forward x g k).2 = k + drawCount m := by
  have h1 : (m.forward x g k).2 =
      (m.layersRest.foldl (fun st L =>
        let r := L.forward st.1 g st.2
        (relu2 r.1, r.2))
        (relu2 (m.layer0.forward x g k).1, (m.layer0.forward x g k).2)).2 +
        O * H + O := rfl
  rw [h1, foldl_layers_snd]
  show (k + H * I + H) + m.layersRest.length * (H * H + H) + O * H + O =
    k + drawCount m
  unfold drawCount
  ring

theorem sampleOutputs_fst {I H O N : ℕ} (m : BayesianModel I H O)
    (x : Fin N → Fin I → ℝ) (g : ℕ → ℝ) :
    ∀ (ns k : ℕ), (sampleOutputs m x ns g k).1 =
      (List.range ns).map (fun s => (m.forward x g (k + s * drawCount m)).1)
  | 0, _ => rfl
  | n + 1, k => by
    show (m.forward x g k).1 ::
      (sampleOutputs m x n g (m.forward x g k).2).1 = _
    rw [model_forward_snd, sampleOutputs_fst m x g n (k + drawCount m),
      List.range_succ_eq_map]
    simp only [List.map_cons, List.map_map, Function.comp]
    congr 1
    · congr 1
      simp
    · congr 1
      funext s
      congr 2
      rw [Nat.succ_mul]
      ring

theorem list_sum_map_range (f : ℕ → ℝ) :
    ∀ n, ((List.range n).map f).sum = ∑ s ∈ Finset.range n, f s
  | 0 => by simp
  | n + 1 => by
    rw [List.range_succ, List.map_append, List.sum_append,
      Finset.sum_range_succ, list_sum_map_range f n]
    simp

/-! ### C1: the ELBO loss -/

/-- Claim C1: for every input `x` with `N` rows, target `y` and positive
`num_samples`, `elbo_loss` returns `-(L - K/N)` where `K` is the network's
total KL divergence, `y_hat` is the elementwise mean of the `num_samples`
independent stochastic forward passes on `x` (the `s`-th pass starting where
the previous one left the RNG), and `L` sums the log-density of `y` under
`Normal(y_hat, 1)` over all elements. -/
theorem elbo_loss_returns_neg_elbo {I H O N : ℕ} (m : BayesianModel I H O)
    (x : Fin N → Fin I → ℝ) (y : Fin N → Fin O → ℝ) (ns : ℕ) (g : ℕ → ℝ)
    (k : ℕ) (hns : 0 < ns) :
    m.elbo_loss x y ns g k =
      -((∑ n, ∑ j, normalLogProb
          ((∑ s ∈ Finset.range ns,
            (m.forward x g (k + s * drawCount m)).1 n j) / (ns : ℝ))
          1 (y n j)) -
        m.kl_divergence / (N : ℝ)) := by
  have hybar : ∀ (n : Fin N) (j : Fin O),
      (((sampleOutputs m x ns g k).1.map (fun o => o n j)).sum /
        ((sampleOutputs m x ns g k).1.length : ℝ)) =
      (∑ s ∈ Finset.range ns,
        (m.forward x g (k + s * drawCount m)).1 n j) / (ns : ℝ) := by
    intro n j
    rw [sampleOutputs_fst, List.map_map, List.length_map, List.length_range,
      list_sum_map_range]
    rfl
  unfold BayesianModel.elbo_loss
  simp only [hybar]

/-- Claim C1 witness: the formula instantiated at the concrete all-sizes-1 network,
zero input and target, one sample, the identity-like RNG stream, position
0. -/
theorem elbo_loss_returns_neg_elbo_witness :
    exModel.elbo_loss exInput exTarget 1 gNat 0 =
      -((∑ n, ∑ j, normalLogProb
          ((∑ s ∈ Finset.range 1,
            (exModel.forward exInput gNat (0 + s * drawCount exModel)).1 n j) /
            ((1 : ℕ) : ℝ))
          1 (exTarget n j)) -
        exModel.kl_divergence / ((1 : ℕ) : ℝ)) :=
  elbo_loss_returns_neg_elbo exModel exInput exTarget 1 gNat 0 one_pos

/-! ### C3, C4, C10: dimension validation, shape errors, output shapes -/

theorem bnnLayerInit_no_invalid (inF outF : Int) :
    raisesError PyError.invalidDimension (bnnLayerInit inF outF) = false := by
  unfold bnnLayerInit
  split_ifs <;> rfl

theorem initAll_no_invalid :
    ∀ l : List (Int × Int),
      raisesError PyError.invalidDimension (initAll l) = false
  | [] => rfl
  | d :: rest => by
    unfold initAll
    cases h : bnnLayerInit d.1 d.2 with
    | error e =>
      have h2 := bnnLayerInit_no_invalid d.1 d.2
      rw [h] at h2
      exact h2
    | ok u => exact initAll_no_invalid rest

/-- Claim C3 counterexample: `BnnLayer(3, 0)` has a non-positive `out_features`
and `BayesianModel(4, 8, 1, 0)` has `num_layers < 1`, yet both constructions
succeed — neither raises `InvalidDimension` (no such check exists in the
code). -/
theorem construction_invalid_dimension_cex :
    bnnLayerInit 3 0 = Except.ok () ∧
    bayesianModelInit 4 8 1 0 = Except.ok () ∧
    ¬ (bnnLayerInit 3 0 = Except.error PyError.invalidDimension ∧
       bayesianModelInit 4 8 1 0 = Except.error PyError.invalidDimension) := by
  refine ⟨rfl, rfl, ?_⟩
  rintro ⟨h, -⟩
  rw [show bnnLayerInit 3 0 = Except.ok () from rfl] at h
  exact Except.noConfusion h

/-- Claim C3 amended: construction performs no dimension validation and never
raises `InvalidDimension`; zero sizes and `num_layers < 1` are silently
accepted (`kaiming_normal_` no-ops on zero-element tensors, so
`in_features = 0` and `out_features = 0` both construct successfully), and
only negative sizes fail, inside the library, with torch's `RuntimeError`
at tensor allocation. -/
theorem construction_never_invalid_dimension :
    (∀ inF outF : Int,
      raisesError PyError.invalidDimension (bnnLayerInit inF outF) = false) ∧
    (∀ i h o n : Int,
      raisesError PyError.invalidDimension (bayesianModelInit i h o n) = false) ∧
    bnnLayerInit (-1) 2 = Except.error PyError.runtimeError ∧
    bnnLayerInit 0 2 = Except.ok () := by
  refine ⟨bnnLayerInit_no_invalid, fun i h o n => ?_, rfl, rfl⟩
  unfold bayesianModelInit
  cases hc : initAll (hiddenDims i h n) with
  | error e =>
    have h2 := initAll_no_invalid (hiddenDims i h n)
    rw [hc] at h2
    exact h2
  | ok u => exact bnnLayerInit_no_invalid h o

theorem linearShape_no_sm (inF outF : ℕ) (xs : List ℕ) :
    raisesError PyError.shapeMismatch (linearShape inF outF xs) = false := by
  unfold linearShape
  match xs with
  | [] => rfl
  | a :: t => split_ifs <;> rfl

theorem hiddenRestShape_no_sm (H : ℕ) :
    ∀ (n : ℕ) (s : List ℕ),
      raisesError PyError.shapeMismatch (hiddenRestShape H n s) = false
  | 0, _ => rfl
  | n + 1, s => by
    unfold hiddenRestShape
    cases h : linearShape H H s with
    | error e =>
      have h2 := linearShape_no_sm H H s
      rw [h] at h2
      exact h2
    | ok s2 => exact hiddenRestShape_no_sm H n s2

theorem modelForwardShape_no_sm (I H O nRest : ℕ) (xs : List ℕ) :
    raisesError PyError.shapeMismatch (modelForwardShape I H O nRest xs) = false := by
  unfold modelForwardShape
  cases h0 : linearShape I H xs with
  | error e =>
    have h2 := linearShape_no_sm I H xs
    rw [h0] at h2
    exact h2
  | ok s0 =>
    dsimp only
    cases hH : hiddenRestShape H nRest s0 with
    | error e =>
      dsimp only
      have h2 := hiddenRestShape_no_sm H nRest s0
      rw [hH] at h2
      exact h2
    | ok sH =>
      dsimp only
      exact linearShape_no_sm H O sH

/-- Claim C4 counterexample: `elbo_loss` with `x` of leading dimension 2 and `y`
of leading dimension 1 silently broadcasts and returns a complete scalar
result instead of failing, and a layer `forward` whose input's trailing
dimension disagrees with `in_features` fails with the library's
`RuntimeError`, not a `ShapeMismatch`. -/
theorem shape_mismatch_cex :
    elboShape 1 1 1 0 [2, 1] [1, 1] 1 = Except.ok [] ∧
    linearShape 4 8 [3, 5] = Except.error PyError.runtimeError ∧
    ¬ (elboShape 1 1 1 0 [2, 1] [1, 1] 1 = Except.error PyError.shapeMismatch) ∧
    ¬ (linearShape 4 8 [3, 5] = Except.error PyError.shapeMismatch) := by
  refine ⟨rfl, rfl, fun h => ?_, fun h => ?_⟩
  · rw [show elboShape 1 1 1 0 [2, 1] [1, 1] 1 = Except.ok [] from rfl] at h
    exact Except.noConfusion h
  · rw [show linearShape 4 8 [3, 5] = Except.error PyError.runtimeError from rfl] at h
    simp at h

/-- Claim C4 amended: no `ShapeMismatch` error exists in the code.  A layer
`forward` whose input's trailing dimension disagrees with `in_features`
raises the library's `RuntimeError`; `elbo_loss` performs no batch-dimension
check at all — `y` is broadcast against the averaged prediction, so a
mismatched leading dimension either broadcasts silently into a complete
result (e.g. leading dimension 1) or raises a library `RuntimeError`. -/
theorem no_shape_mismatch_error :
    (∀ (inF outF : ℕ) (xs : List ℕ),
      raisesError PyError.shapeMismatch (linearShape inF outF xs) = false) ∧
    (∀ (inF outF : ℕ) (xs : List ℕ), xs ≠ [] → ¬ xs.getLast? = some inF →
      linearShape inF outF xs = Except.error PyError.runtimeError) ∧
    (∀ (i h o nRest : ℕ) (xs ys : List ℕ) (ns : ℕ),
      raisesError PyError.shapeMismatch (elboShape i h o nRest xs ys ns) = false) ∧
    elboShape 1 1 1 0 [2, 1] [1, 1] 1 = Except.ok [] := by
  refine ⟨linearShape_no_sm, ?_, ?_, rfl⟩
  · intro inF outF xs hxs hlast
    match xs with
    | [] => exact absurd rfl hxs
    | a :: t =>
      unfold linearShape
      rw [if_neg hlast]
  · intro i h o nRest xs ys ns
    unfold elboShape
    split_ifs with hns
    · rfl
    · cases hf : modelForwardShape i h o nRest xs with
      | error e =>
        have h2 := modelForwardShape_no_sm i h o nRest xs
        rw [hf] at h2
        exact h2
      | ok so =>
        dsimp only
        cases hb : broadcastShapes so ys with
        | none => dsimp only; rfl
        | some r => dsimp only; rfl

/-- Claim C4 witness: a concrete trailing-dimension mismatch — a layer with
`in_features = 4` fed a 1-D input of size 9 — raises `RuntimeError`. -/
theorem no_shape_mismatch_error_witness :
    linearShape 4 8 [9] = Except.error PyError.runtimeError :=
  no_shape_mismatch_error.2.1 4 8 [9] (by decide) (by decide)

theorem hiddenRestShape_fixed (H n : ℕ) :
    ∀ r : ℕ, hiddenRestShape H r [n, H] = Except.ok [n, H]
  | 0 => rfl
  | r + 1 => by
    unfold hiddenRestShape
    have h : linearShape H H [n, H] = Except.ok [n, H] := by
      simp [linearShape]
    rw [h]
    exact hiddenRestShape_fixed H n r

/-- Claim C10: a layer's forward pass maps an input whose trailing dimension is
`in_features` to the same shape with the trailing dimension replaced by
`out_features`, preserving every leading (batch) dimension; and the
network's forward pass maps shape `(n, input_size)` to
`(n, output_size)`. -/
theorem forward_shape_preserves_batch :
    (∀ (inF outF : ℕ) (xs : List ℕ), xs ≠ [] → xs.getLast? = some inF →
      linearShape inF outF xs = Except.ok (xs.dropLast ++ [outF])) ∧
    (∀ (i h o nRest n : ℕ),
      modelForwardShape i h o nRest [n, i] = Except.ok [n, o]) := by
  constructor
  · intro inF outF xs hxs hlast
    match xs with
    | [] => exact absurd rfl hxs
    | a :: t =>
      unfold linearShape
      rw [if_pos hlast]
  · intro i h o nRest n
    have h1 : linearShape i h [n, i] = Except.ok [n, h] := by
      simp [linearShape]
    have h2 : linearShape h o [n, h] = Except.ok [n, o] := by
      simp [linearShape]
    unfold modelForwardShape
    rw [h1]
    dsimp only
    rw [hiddenRestShape_fixed]
    dsimp only
    exact h2

/-- Claim C10 witness: a layer `(in_features, out_features) = (4, 8)` on an input
of shape `(7, 4)` returns shape `(7, 8)`, and a 2-hidden-layer network
`4 → 8 → 8 → 1` on an input of shape `(16, 4)` returns shape `(16, 1)`. -/
theorem forward_shape_preserves_batch_witness :
    linearShape 4 8 [7, 4] = Except.ok ([7, 4].dropLast ++ [8]) ∧
    modelForwardShape 4 8 1 1 [16, 4] = Except.ok [16, 1] :=
  ⟨forward_shape_preserves_batch.1 4 8 [7, 4] (by decide) (by decide),
    forward_shape_preserves_batch.2 4 8 1 1 16⟩

end BnnModel
